import Mathlib

/-!
Verification of the ai_architect multi-agent pipeline.

This file is a shallow embedding of the orchestration core of the
repository: the LLM client factory (`model_factory.get_llm`), the pydantic
schemas (`schemas.py`), the deterministic diagram generator
(`tools.hld_to_mermaid`) and the LangGraph workflow (`graph.py`): its
`AgentState`, node functions, conditional routing functions and edge maps.

Modelling conventions:
  - Python dicts with string keys become association lists; `Optional[T]`
    becomes `Option T`; a Python runtime exception inside a node
    (AttributeError, ValidationError, KeyError) is modelled by the node
    returning `none` / an `Except.error`.
  - Calls to LLM agents are calls to an external collaborator; they are
    collected in an `Agents` structure of oracles, one field per agent
    function, each returning its structured result together with the token
    count that the node's `TokenMeter` observes for the call.
  - `AgentState` in graph.py is a plain `TypedDict` with no `Annotated`
    reducer on any field, so every LangGraph channel is a last-value
    channel: the partial dict a node returns overwrites exactly the keys
    it mentions and leaves the other keys unchanged.  Node functions are
    therefore embedded as state-to-state functions built with structure
    update syntax, writing exactly the keys of the returned dict.
  - The compiled graph is embedded as a fuel-indexed interpreter
    `runWorkflowFrom` that executes a node, routes on the updated state
    through the same edge maps as `workflow.add_conditional_edges`, and
    stops at END, on an exception, or when the fuel runs out (LangGraph's
    recursion limit plays the role of the fuel in the real system).
-/

set_option linter.unusedVariables false

namespace AIArchitect

/-- Python exceptions that the embedded code can raise. -/
inductive PyExc where
  | keyError (key : String)
  | valueError (msg : String)
  deriving DecidableEq, Repr

/-- LangChain chat clients constructed by `model_factory.get_llm`, one
constructor per provider branch, with the constructor arguments that the
source passes. -/
inductive LLMClient where
  | chatOpenAI (model : String) (temperature : Nat) (api_key : String)
  | chatGoogleGenerativeAI (model : String) (temperature : Nat)
      (convert_system_message_to_human : Bool) (google_api_key : String)
  | chatAnthropic (model : String) (temperature : Nat) (api_key : String)
  | chatOllama (model : String) (temperature : Nat) (format : String)
  deriving DecidableEq, Repr

/-- Python dict subscript `d[key]`: the value, or a `KeyError` on a missing
key. -/
def dictGet {β : Type} (d : List (String × β)) (key : String) : Except PyExc β :=
  match d.find? (fun kv => kv.1 == key) with
  | some kv => Except.ok kv.2
  | none => Except.error (PyExc.keyError key)

/-- The `models` dict of `model_factory.get_llm`. -/
def models_dict : List (String × List (String × String)) :=
  [("openai", [("fast", "gpt-4o-mini"), ("smart", "gpt-4.1-mini")]),
   ("gemini", [("smart", "gemini-2.5-flash"), ("fast", "gemini-2.5-flash-lite")]),
   ("claude", [("smart", "claude-3-5-sonnet-20240620"), ("fast", "claude-3-haiku-20240307")]),
   ("ollama", [("smart", "qwen3:8b"), ("fast", "phi4-mini:latest")])]

/-- Embedding of `model_factory.get_llm(provider, api_key, model_type)`.
The source subscripts `models[provider][model_type]` before any provider
check, so an unrecognized provider raises `KeyError(provider)` there; the
final `raise ValueError(f"Unknown provider: ...")` is only reached if no
branch matches after both subscripts succeed. -/
def get_llm (provider api_key model_type : String) : Except PyExc LLMClient := do
  let provider_models ← dictGet models_dict provider
  let selected_model ← dictGet provider_models model_type
  let temperature := 0
  if provider == "openai" then
    Except.ok (LLMClient.chatOpenAI selected_model temperature api_key)
  else if provider == "gemini" then
    Except.ok (LLMClient.chatGoogleGenerativeAI selected_model temperature true api_key)
  else if provider == "claude" then
    Except.ok (LLMClient.chatAnthropic selected_model temperature api_key)
  else if provider == "ollama" then
    Except.ok (LLMClient.chatOllama selected_model temperature "json")
  else
    Except.error (PyExc.valueError ("Unknown provider: " ++ provider))

/-- `schemas.Citation`. -/
structure Citation where
  description : String
  source : String
  deriving DecidableEq, Inhabited

/-- `schemas.BusinessContext`. -/
structure BusinessContext where
  version : String
  change_log : List String
  problem_statement : String
  business_goals : List String
  in_scope : List String
  out_of_scope : List String
  assumptions_constraints : List String
  non_goals : List String
  stakeholders : List String
  deriving DecidableEq, Inhabited

/-- `schemas.ArchitectureDiagrams`. -/
structure ArchitectureDiagrams where
  system_context : String
  container_diagram : String
  data_flow : String
  deriving DecidableEq, Inhabited

/-- `schemas.ArchitectureOverview`.  The `style` Literal and the
`tech_stack` Dict[str, str] are embedded as a string and an association
list.  Note that this schema declares no `event_flows` field: accessing
`architecture_overview.event_flows` on an instance raises AttributeError. -/
structure ArchitectureOverview where
  style : String
  system_context_diagram_desc : String
  high_level_component_diagram_desc : String
  data_flow_desc : String
  external_interfaces : List String
  user_stories : List String
  tech_stack : List (String × String)
  deriving DecidableEq, Inhabited

/-- `schemas.ComponentSpec`. -/
structure ComponentSpec where
  name : String
  responsibility : String
  design_patterns : List String
  communication_protocols : List String
  sync_async_boundaries : String
  trust_boundaries : String
  component_dependencies : List String
  component_metrics : List String
  component_ownership : String
  deriving DecidableEq, Inhabited

/-- `schemas.DataArchitecture`.  `data_ownership_map` and `storage_choices`
are `Dict[str, str]` in the schema, embedded as association lists; note
that iterating a Python dict yields its string keys. -/
structure DataArchitecture where
  data_ownership_map : List (String × String)
  storage_choices : List (String × String)
  data_classification : String
  consistency_model : String
  data_retention_policy : String
  data_backup_recovery : String
  schema_evolution_strategy : String
  deriving DecidableEq, Inhabited

/-- `schemas.IntegrationStrategy`. -/
structure IntegrationStrategy where
  public_apis : List String
  internal_apis : List String
  api_gateway_strategy : String
  api_documentation : String
  contract_strategy : String
  versioning_strategy : String
  backward_compatibility_plan : String
  deriving DecidableEq, Inhabited

/-- `schemas.NFRs`. -/
structure NFRs where
  scalability_plan : String
  availability_slo : String
  latency_targets : String
  security_requirements : List String
  reliability_targets : String
  maintainability_plan : String
  cost_constraints : String
  load_testing_strategy : String
  deriving DecidableEq, Inhabited

/-- `schemas.SecurityCompliance`. -/
structure SecurityCompliance where
  threat_model_summary : String
  authentication_strategy : String
  authorization_strategy : String
  secrets_management : String
  data_encryption_at_rest : String
  data_encryption_in_transit : String
  auditing_mechanisms : String
  compliance_certifications : List String
  deriving DecidableEq, Inhabited

/-- `schemas.ReliabilityResilience`. -/
structure ReliabilityResilience where
  failover_strategy : String
  disaster_recovery_rpo_rto : String
  self_healing_mechanisms : String
  retry_backoff_strategy : String
  circuit_breaker_policy : String
  deriving DecidableEq, Inhabited

/-- `schemas.ObservabilityStrategy`. -/
structure ObservabilityStrategy where
  logging_strategy : String
  metrics_collection : List String
  tracing_strategy : String
  alerting_rules : List String
  deriving DecidableEq, Inhabited

/-- `schemas.DeploymentOperations`. -/
structure DeploymentOperations where
  cloud_provider : String
  deployment_model : String
  cicd_pipeline : String
  deployment_strategy : String
  feature_flag_strategy : String
  rollback_strategy : String
  operational_monitoring : String
  git_repository_management : String
  deriving DecidableEq, Inhabited

/-- `schemas.DesignDecisions`. -/
structure DesignDecisions where
  patterns_used : List String
  tech_stack_justification : String
  trade_off_analysis : String
  rejected_alternatives : List String
  deriving DecidableEq, Inhabited

/-- `schemas.HighLevelDesign`. -/
structure HighLevelDesign where
  business_context : BusinessContext
  architecture_overview : ArchitectureOverview
  core_components : List ComponentSpec
  data_architecture : DataArchitecture
  integration_strategy : IntegrationStrategy
  nfrs : NFRs
  security_compliance : SecurityCompliance
  reliability_resilience : ReliabilityResilience
  observability : ObservabilityStrategy
  deployment_ops : DeploymentOperations
  design_decisions : DesignDecisions
  diagrams : Option ArchitectureDiagrams
  citations : Option (List Citation)
  deriving DecidableEq, Inhabited

/-- `schemas.InternalComponentDesign`. -/
structure InternalComponentDesign where
  component_name : String
  class_structure_desc : String
  module_boundaries : String
  interface_specifications : List String
  dependency_direction : String
  error_handling_local : String
  versioning : String
  security_considerations : String
  deriving DecidableEq, Inhabited

/-- `schemas.APIEndpointDetail`. -/
structure APIEndpointDetail where
  endpoint : String
  method : String
  request_schema : String
  response_schema : String
  error_codes : List String
  rate_limiting_rule : String
  authorization_mechanism : String
  api_gateway_integration : String
  testing_strategy : String
  versioning_strategy : String
  deriving DecidableEq, Inhabited

/-- `schemas.DataModelDetail`. -/
structure DataModelDetail where
  entity : String
  attributes : List String
  indexes : List String
  constraints : List String
  validation_rules : List String
  foreign_keys : List String
  migration_strategy : String
  deriving DecidableEq, Inhabited

/-- `schemas.BusinessLogic`. -/
structure BusinessLogic where
  core_algorithms : String
  state_machine_desc : Option String
  concurrency_control : String
  async_processing_details : Option String
  deriving DecidableEq, Inhabited

/-- `schemas.ErrorHandlingStrategy`. -/
structure ErrorHandlingStrategy where
  error_taxonomy : String
  custom_error_codes : List String
  retry_policies : String
  dlq_strategy : Option String
  exception_handling_framework : String
  deriving DecidableEq, Inhabited

/-- `schemas.SecurityImplementation`. -/
structure SecurityImplementation where
  input_validation_rules : String
  auth_flow_diagram_desc : String
  token_management : String
  encryption_details : String
  deriving DecidableEq, Inhabited

/-- `schemas.PerformanceEng`. -/
structure PerformanceEng where
  caching_strategy : String
  cache_invalidation : String
  async_processing_desc : String
  load_balancing_strategy : String
  deriving DecidableEq, Inhabited

/-- `schemas.TestingStrategy`. -/
structure TestingStrategy where
  unit_test_scope : String
  integration_test_scope : String
  contract_testing_tools : String
  chaos_engineering_plan : Option String
  test_coverage_metrics : String
  deriving DecidableEq, Inhabited

/-- `schemas.OperationalReadiness`. -/
structure OperationalReadiness where
  runbook_summary : String
  incident_response_plan : String
  monitoring_and_alerts : List String
  backup_recovery_procedures : String
  deriving DecidableEq, Inhabited

/-- `schemas.DocumentationGovernance`. -/
structure DocumentationGovernance where
  code_docs_standard : String
  api_docs_tooling : String
  adr_process : String
  document_review_process : String
  internal_vs_public_docs : String
  deriving DecidableEq, Inhabited

/-- `schemas.LowLevelDesign`. -/
structure LowLevelDesign where
  detailed_components : List InternalComponentDesign
  api_design : List APIEndpointDetail
  data_model_deep_dive : List DataModelDetail
  business_logic : BusinessLogic
  consistency_concurrency : String
  error_handling : ErrorHandlingStrategy
  security_implementation : SecurityImplementation
  performance_engineering : PerformanceEng
  testing_strategy : TestingStrategy
  operational_readiness : OperationalReadiness
  documentation_governance : DocumentationGovernance
  citations : Option (List Citation)
  deriving DecidableEq, Inhabited

/-- `schemas.JudgeVerdict`. -/
structure JudgeVerdict where
  is_valid : Bool
  critique : String
  score : Int
  hld_lld_mismatch : Option (List String)
  security_gaps : Option (List String)
  nfr_mismatches : Option (List String)
  diagram_issues : Option (List String)
  testing_coverage_gaps : Option (List String)
  iteration_recommendations : Option (List String)
  deriving DecidableEq, Inhabited

/-- `schemas.FileSpec`. -/
structure FileSpec where
  filename : String
  content : String
  language : String
  deriving DecidableEq, Inhabited

/-- Modelled from the spec: `ProjectStructure` is imported by graph.py and
agents.py from `schemas`, but schemas.py does not define it (its closest
analogue there is `ScaffoldingSpec`).  The spec describes the scaffold
artifact as a structured file list produced by the Scaffolder, so this
structure mirrors `ScaffoldingSpec`. -/
structure ProjectStructure where
  folder_structure : String
  starter_files : List FileSpec
  cookiecutter_url : Option String
  deriving DecidableEq, Inhabited

/-- `schemas.RefinedDesign`. -/
structure RefinedDesign where
  hld : HighLevelDesign
  lld : LowLevelDesign
  improvement_notes : String
  deriving DecidableEq, Inhabited

/-- `schemas.DiagramValidationResult`. -/
structure DiagramValidationResult where
  valid_syntax : Bool
  missing_elements : List String
  invalid_elements : List String
  critique : String
  deriving DecidableEq, Inhabited

/-- One entry of the `logs` list: the node functions append dicts with a
`role` and a `message` key. -/
structure LogEntry where
  role : String
  message : String
  deriving DecidableEq, Inhabited

/-- `graph.AgentState`.  `task` is `Option String` because the routing
function reads it with `state.get('task', 'architecture')` and the caller
(app.py) may omit the key; `retry_count` is a plain `Nat` because every
read is `state.get('retry_count', 0)`, so a missing key is
indistinguishable from `0`.  `diagram_path` holds the list of tool
results that `visuals_node` / `fix_diagram_node` store in it. -/
structure AgentState where
  task : Option String
  user_request : String
  provider : String
  api_key : String
  hld : Option HighLevelDesign
  lld : Option LowLevelDesign
  verdict : Option JudgeVerdict
  diagram_code : Option ArchitectureDiagrams
  diagram_path : Option (List String)
  diagram_validation : Option DiagramValidationResult
  scaffold : Option ProjectStructure
  retry_count : Nat
  total_tokens : Nat
  logs : List LogEntry
  generated_date : String
  deriving DecidableEq, Inhabited

/-- The external collaborators of the workflow: the LLM agent functions of
agents.py, the diagram execution tool, and the ambient date.  Each agent
oracle takes the arguments its call site in graph.py passes and returns
its structured result together with the token count that the call adds to
the node's `TokenMeter`. -/
structure Agents where
  /-- `agents.engineering_manager(user_request, llm, meter, feedback)`. -/
  engineering_manager : String → String → HighLevelDesign × Nat
  /-- `agents.security_specialist(hld, llm, meter)`. -/
  security_specialist : HighLevelDesign → SecurityCompliance × Nat
  /-- `agents.team_lead(hld, llm, meter)`. -/
  team_lead : HighLevelDesign → LowLevelDesign × Nat
  /-- `agents.architecture_judge(hld, lld, llm, meter)`. -/
  architecture_judge : HighLevelDesign → LowLevelDesign → JudgeVerdict × Nat
  /-- `agents.reiteration_agent(verdict, hld, lld, llm, meter)`. -/
  reiteration_agent : JudgeVerdict → Option HighLevelDesign → Option LowLevelDesign →
      RefinedDesign × Nat
  /-- Modelled from the spec: `validator_node` calls
  `agents.diagram_validator(temp_hld, llm, meter)`, which is absent from
  agents.py under src; the spec describes the validator as an annotate-only
  step producing a validation report from the design. -/
  diagram_validator : HighLevelDesign → DiagramValidationResult × Nat
  /-- `agents.scaffold_architect(lld, llm, meter)`. -/
  scaffold_architect : LowLevelDesign → ProjectStructure × Nat
  /-- Modelled from the spec: `tools.run_diagram_code` is called by
  `visuals_node` but is not defined anywhere under src; the spec
  specifies `renderDiagram(code) -> path | error-string` with errors
  returned as data, never thrown, so it is modelled as a total oracle
  from the diagram code to the path-or-error string (the optional
  output-name hint the call sites pass is dropped). -/
  run_diagram_code : String → String
  /-- `date.today().isoformat()`, read once per `manager_node` run. -/
  today : String

/-- Whether the first character list is a prefix of the second. -/
def listIsPrefixOf : List Char → List Char → Bool
  | [], _ => true
  | _ :: _, [] => false
  | a :: as, b :: bs => a == b && listIsPrefixOf as bs

/-- Whether `pat` occurs as a contiguous sublist. -/
def listContainsSub (pat : List Char) : List Char → Bool
  | [] => pat.isEmpty
  | c :: cs => listIsPrefixOf pat (c :: cs) || listContainsSub pat cs

/-- Python substring test `pat in s`. -/
def strContains (s pat : String) : Bool := listContainsSub pat.toList s.toList

/-- The system-context section built by `tools.hld_to_mermaid`. -/
def systemContextOf (hld : HighLevelDesign) : String :=
  let base := "graph TD\n" ++ "    User((User))\n" ++ "    System[System Boundary]\n" ++
    "    User -->|Uses| System\n"
  hld.architecture_overview.external_interfaces.foldl (fun acc ext =>
    let safe_ext := (ext.replace " " "_").replace "-" "_"
    acc ++ "    " ++ safe_ext ++ "[" ++ ext ++ "]\n" ++
      "    System -->|Integrates| " ++ safe_ext ++ "\n") base

/-- The core-components part of the container section built by
`tools.hld_to_mermaid`. -/
def containerCoreOf (hld : HighLevelDesign) : String :=
  hld.core_components.foldl (fun acc comp =>
    let safe_name := comp.name.replace " " "_"
    let withNode := acc ++ "    " ++ safe_name ++ "[" ++ comp.name ++ "]\n"
    comp.component_dependencies.foldl (fun acc2 dep =>
      acc2 ++ "    " ++ safe_name ++ " --> " ++ dep.replace " " "_" ++ "\n") withNode)
    "graph TD\n"

/-- Embedding of `tools.hld_to_mermaid(hld)`.  Two statements in the source
raise AttributeError on the schemas.py data model, modelled as `none`:

  - the storage loop `for store in hld.data_architecture.storage_choices`
    iterates a `Dict[str, str]`, so `store` is a string key and
    `store.technology` raises as soon as the dict is non-empty;
  - the data-flow section reads `hld.architecture_overview.event_flows`,
    a field `schemas.ArchitectureOverview` does not declare, so the
    access raises on every instance before the loop body runs. -/
def hld_to_mermaid (hld : HighLevelDesign) : Option (String × String × String) :=
  let system_context := systemContextOf hld
  let container := containerCoreOf hld
  match hld.data_architecture.storage_choices with
  | _ :: _ => none
  | [] =>
    match (none : Option String) with
    | some data_flow => some (system_context, container, data_flow)
    | none => none

/-- `graph.manager_node`.  Returns the keys `hld`, `generated_date`,
`total_tokens` and `logs`; all other channels keep their previous value. -/
def manager_node (env : Agents) (s : AgentState) : AgentState :=
  let today := env.today
  let r := env.engineering_manager s.user_request ("Use tech stack current as of " ++ today)
  { s with
    hld := some r.1,
    generated_date := today,
    total_tokens := s.total_tokens + r.2,
    logs := [⟨"Manager", "HLD drafted"⟩] }

/-- `graph.security_node`.  `state['hld'].model_copy()` (and the agent's
`hld.model_dump_json()`) raise AttributeError when `hld` is `None`. -/
def security_node (env : Agents) (s : AgentState) : Option AgentState :=
  match s.hld with
  | none => none
  | some hld0 =>
    let r := env.security_specialist hld0
    let current_hld := { hld0 with security_compliance := r.1 }
    some { s with
      hld := some current_hld,
      total_tokens := s.total_tokens + r.2,
      logs := [⟨"Security", "Security hardened"⟩] }

/-- `graph.lead_node`.  The agent dumps `hld.model_dump_json()`, raising on
`None`. -/
def lead_node (env : Agents) (s : AgentState) : Option AgentState :=
  match s.hld with
  | none => none
  | some hld0 =>
    let r := env.team_lead hld0
    some { s with
      lld := some r.1,
      total_tokens := s.total_tokens + r.2,
      logs := [⟨"Lead", "LLD created"⟩] }

/-- `graph.judge_node`.  The agent dumps both documents, raising when
either is `None`.  Note: no `retry_count` key is in the returned dict. -/
def judge_node (env : Agents) (s : AgentState) : Option AgentState :=
  match s.hld, s.lld with
  | some h, some l =>
    let r := env.architecture_judge h l
    some { s with
      verdict := some r.1,
      total_tokens := s.total_tokens + r.2,
      logs := [⟨"Judge", "Verdict: " ++ (if r.1.is_valid then "Approved" else "Rejected")⟩] }
  | _, _ => none

/-- `graph.refiner_node`.  The agent reads `judge.critique` and friends,
raising when the verdict is `None`; the returned dict sets `hld`, `lld`,
`retry_count = state.get('retry_count', 0) + 1`, `total_tokens`, `logs`. -/
def refiner_node (env : Agents) (s : AgentState) : Option AgentState :=
  match s.verdict with
  | none => none
  | some v =>
    let r := env.reiteration_agent v s.hld s.lld
    some { s with
      hld := some r.1.hld,
      lld := some r.1.lld,
      retry_count := s.retry_count + 1,
      total_tokens := s.total_tokens + r.2,
      logs := [⟨"Refiner", "Design refined"⟩] }

/-- `graph.visuals_node`.  Calls `tools.hld_to_mermaid(state['hld'])`
(AttributeError when `hld` is `None`, and inside the tool on every
instance, see `hld_to_mermaid`), wraps the result in
`ArchitectureDiagrams`, runs the three code blocks through
`tools.run_diagram_code`, and returns `total_tokens` unchanged. -/
def visuals_node (env : Agents) (s : AgentState) : Option AgentState :=
  match s.hld with
  | none => none
  | some h =>
    match hld_to_mermaid h with
    | none => none
    | some m =>
      let diagram_spec : ArchitectureDiagrams := ⟨m.1, m.2.1, m.2.2⟩
      let paths := [env.run_diagram_code diagram_spec.system_context,
                    env.run_diagram_code diagram_spec.container_diagram,
                    env.run_diagram_code diagram_spec.data_flow]
      some { s with
        diagram_code := some diagram_spec,
        diagram_path := some paths,
        total_tokens := s.total_tokens,
        logs := [⟨"Visuals", "Diagrams generated deterministically"⟩] }

/-- `graph.fix_diagram_node`.  `state['diagram_code'].container_diagram`
raises on `None`; `a or b` on strings picks `a` unless it is empty.  The
node then calls `agents.diagram_fixer(failed_code, error_msg, llm, meter)`
with four arguments, but `agents.diagram_fixer` in agents.py takes eight
required parameters (six code/error strings plus `llm` and `meter`), so
the call raises TypeError on every execution; the rest of the body
(re-running the fixed diagrams and returning the updated keys) is
unreachable.  The node therefore always raises, modelled as `none`. -/
def fix_diagram_node (env : Agents) (s : AgentState) : Option AgentState :=
  match s.diagram_code with
  | none => none
  | some dc =>
    let failed_code := if dc.container_diagram ≠ "" then dc.container_diagram
      else dc.system_context
    let error_msg := s.diagram_path
    none

/-- `graph.validator_node`.  With an HLD present it copies it, splices in
the diagram code and consults the validator agent; the `else` branch
constructs `DiagramValidationResult(is_valid=..., reason=...)`, omitting
all four required fields of that schema, so pydantic raises
ValidationError (`none`).  The returned dict has no `logs` key. -/
def validator_node (env : Agents) (s : AgentState) : Option AgentState :=
  match s.hld with
  | some h =>
    let temp_hld := { h with diagrams := s.diagram_code }
    let r := env.diagram_validator temp_hld
    some { s with
      diagram_validation := some r.1,
      total_tokens := s.total_tokens + r.2 }
  | none => none

/-- `graph.scaffold_node`.  The agent reads `lld.detailed_components`,
raising on `None`. -/
def scaffold_node (env : Agents) (s : AgentState) : Option AgentState :=
  match s.lld with
  | none => none
  | some l =>
    let r := env.scaffold_architect l
    some { s with
      scaffold := some r.1,
      total_tokens := s.total_tokens + r.2,
      logs := [⟨"Scaffold", "Project scaffold generated"⟩] }

/-- The named nodes added with `workflow.add_node`. -/
inductive NodeName where
  | manager | security | team_lead | judge | refiner
  | visuals | fix_diagram | validator | scaffold
  deriving DecidableEq, Inhabited, Repr

/-- Target of an edge: a node, or the END sentinel. -/
inductive Dest where
  | toNode (n : NodeName)
  | toEnd
  deriving DecidableEq, Repr

/-- `graph.route_entry_point`. -/
def route_entry_point (s : AgentState) : String :=
  let task := s.task.getD "architecture"
  if task == "diagrams" then "visuals"
  else if task == "code" then "scaffold"
  else "manager"

/-- `graph.check_diagram_execution`.  `if result:` is false for `None` and
for an empty list; the stored results are strings, so `str(r)` is the
identity and `"Error" in str(r)` is a substring test. -/
def check_diagram_execution (s : AgentState) : String :=
  match s.diagram_path with
  | none => "success"
  | some results =>
    if results.isEmpty then "success"
    else if results.any (fun r => strContains r "Error" || strContains r "Exception") then
      if s.retry_count > 3 then "failed" else "error"
    else "success"

/-- `graph.check_quality`.  `state['verdict'] and state['verdict'].is_valid`
is Python truthiness: a missing/None verdict falls through to the retry
test. -/
def check_quality (s : AgentState) : String :=
  if (s.verdict.map JudgeVerdict.is_valid).getD false then "approved"
  else if s.retry_count > 2 then "max_retries"
  else "rejected"

/-- The label-to-target dict of the `add_conditional_edges(START, ...)`
call; an unmapped label would make LangGraph raise, modelled as `none`. -/
def start_edges : String → Option NodeName := fun label =>
  if label == "manager" then some NodeName.manager
  else if label == "visuals" then some NodeName.visuals
  else if label == "scaffold" then some NodeName.scaffold
  else none

/-- The label-to-target dict of the `add_conditional_edges("judge", ...)`
call. -/
def judge_edges : String → Option Dest := fun label =>
  if label == "rejected" then some (Dest.toNode NodeName.refiner)
  else if label == "approved" then some Dest.toEnd
  else if label == "max_retries" then some Dest.toEnd
  else none

/-- The label-to-target dict shared by the `add_conditional_edges` calls on
`visuals` and on `fix_diagram`. -/
def diagram_edges : String → Option Dest := fun label =>
  if label == "success" then some (Dest.toNode NodeName.validator)
  else if label == "error" then some (Dest.toNode NodeName.fix_diagram)
  else if label == "failed" then some (Dest.toNode NodeName.validator)
  else none

/-- Executes one named node on the current state; `none` is an uncaught
Python exception inside the node. -/
def execNode (env : Agents) (n : NodeName) (s : AgentState) : Option AgentState :=
  match n with
  | NodeName.manager => some (manager_node env s)
  | NodeName.security => security_node env s
  | NodeName.team_lead => lead_node env s
  | NodeName.judge => judge_node env s
  | NodeName.refiner => refiner_node env s
  | NodeName.visuals => visuals_node env s
  | NodeName.fix_diagram => fix_diagram_node env s
  | NodeName.validator => validator_node env s
  | NodeName.scaffold => scaffold_node env s

/-- The outgoing edge of each node, evaluated on the state after the node
ran: the plain `add_edge` chain for the linear parts, the conditional
edge maps for `judge`, `visuals` and `fix_diagram`, END after `validator`
and `scaffold`. -/
def routeAfter (n : NodeName) (s : AgentState) : Option Dest :=
  match n with
  | NodeName.manager => some (Dest.toNode NodeName.security)
  | NodeName.security => some (Dest.toNode NodeName.team_lead)
  | NodeName.team_lead => some (Dest.toNode NodeName.judge)
  | NodeName.judge => judge_edges (check_quality s)
  | NodeName.refiner => some (Dest.toNode NodeName.judge)
  | NodeName.visuals => diagram_edges (check_diagram_execution s)
  | NodeName.fix_diagram => diagram_edges (check_diagram_execution s)
  | NodeName.validator => some Dest.toEnd
  | NodeName.scaffold => some Dest.toEnd

/-- Outcome of driving the compiled graph: a final state at END, an
uncaught exception, or fuel exhaustion (LangGraph's recursion limit). -/
inductive RunResult where
  | ok (s : AgentState)
  | exc
  | timeout
  deriving DecidableEq, Inhabited

/-- Retry counter of a final state, if the run reached END. -/
def RunResult.retryOf : RunResult → Option Nat
  | RunResult.ok s => some s.retry_count
  | _ => none

/-- Drives the compiled graph from a given node: execute the node, route
on the updated state, recurse.  Returns the outcome together with the
list of nodes that were executed, in order. -/
def runWorkflowFrom (env : Agents) : Nat → AgentState → NodeName → RunResult × List NodeName
  | 0, _, _ => (RunResult.timeout, [])
  | fuel + 1, s, n =>
    match execNode env n s with
    | none => (RunResult.exc, [n])
    | some s2 =>
      match routeAfter n s2 with
      | none => (RunResult.exc, [n])
      | some Dest.toEnd => (RunResult.ok s2, [n])
      | some (Dest.toNode n2) =>
        let r := runWorkflowFrom env fuel s2 n2
        (r.1, n :: r.2)

/-- The entry node chosen by the START conditional edge. -/
def entryNode (s : AgentState) : Option NodeName := start_edges (route_entry_point s)

/-- Runs the compiled graph on an initial state: the START conditional
edge picks the entry node from the initial state, then the node loop
runs. -/
def runWorkflow (env : Agents) (fuel : Nat) (s : AgentState) : RunResult × List NodeName :=
  match entryNode s with
  | none => (RunResult.exc, [])
  | some n => runWorkflowFrom env fuel s n

/-- Unfolding equation of `runWorkflowFrom` for positive fuel. -/
theorem runWorkflowFrom_succ (env : Agents) (fuel : Nat) (s : AgentState) (n : NodeName) :
    runWorkflowFrom env (fuel + 1) s n =
      match execNode env n s with
      | none => (RunResult.exc, [n])
      | some s2 =>
        match routeAfter n s2 with
        | none => (RunResult.exc, [n])
        | some Dest.toEnd => (RunResult.ok s2, [n])
        | some (Dest.toNode n2) =>
          ((runWorkflowFrom env fuel s2 n2).1, n :: (runWorkflowFrom env fuel s2 n2).2) := rfl

/-! Concrete fixtures used by witnesses and counterexamples. -/

/-- A concrete collaborator assignment: every agent returns the default
document of its schema together with a fixed token count, the renderer
returns a path, and the date is fixed. -/
def envW : Agents where
  engineering_manager := fun _ _ => (default, 120)
  security_specialist := fun _ => (default, 40)
  team_lead := fun _ => (default, 100)
  architecture_judge := fun _ _ => (default, 30)
  reiteration_agent := fun _ _ _ => (default, 80)
  diagram_validator := fun _ => (default, 10)
  scaffold_architect := fun _ => (default, 50)
  run_diagram_code := fun _ => "diagrams/system_context.png"
  today := "2026-10-12"

/-- A fresh Architecture-path initial state, as app.py builds it: zeroed
counters, empty logs, no artifacts. -/
def initState : AgentState where
  task := some "architecture"
  user_request := "Build a URL shortener"
  provider := "openai"
  api_key := "sk-test"
  hld := none
  lld := none
  verdict := none
  diagram_code := none
  diagram_path := none
  diagram_validation := none
  scaffold := none
  retry_count := 0
  total_tokens := 0
  logs := []
  generated_date := ""

/-- Initial state for the Diagrams path. -/
def sDiag : AgentState := { initState with task := some "diagrams" }

/-- Initial state for the Code path. -/
def sCode : AgentState := { initState with task := some "code" }

/-- Initial state with an unrecognized task string. -/
def sWeird : AgentState := { initState with task := some "foobar" }

/-- A state as it reaches the judge: both documents present, counter at
zero. -/
def sJudgeReady : AgentState :=
  { initState with hld := some default, lld := some default }

/-- A state as it reaches the refiner: a rejection verdict is present. -/
def sRefReady : AgentState := { initState with verdict := some default }

/-- A Diagrams-path state carrying an HLD, as after loading a finished
architecture run. -/
def sVis : AgentState := { sDiag with hld := some default }

/-! Helper lemmas about the runner and the edge maps. -/

/-- With positive fuel, the first executed node is the node the runner was
started at. -/
theorem runWorkflowFrom_head (env : Agents) (fuel : Nat) (s : AgentState) (n : NodeName) :
    (runWorkflowFrom env (fuel + 1) s n).2.head? = some n := by
  rw [runWorkflowFrom_succ]
  cases hx : execNode env n s with
  | none => rfl
  | some s2 =>
    dsimp only
    cases hr : routeAfter n s2 with
    | none => rfl
    | some d =>
      cases d with
      | toEnd => rfl
      | toNode n2 => rfl

theorem judge_edges_approved : judge_edges "approved" = some Dest.toEnd := rfl

theorem judge_edges_max_retries : judge_edges "max_retries" = some Dest.toEnd := rfl

theorem judge_edges_rejected :
    judge_edges "rejected" = some (Dest.toNode NodeName.refiner) := rfl

theorem check_quality_of_valid (s : AgentState) (v : JudgeVerdict)
    (h : s.verdict = some v) (hv : v.is_valid = true) :
    check_quality s = "approved" := by
  simp [check_quality, h, hv]

theorem check_quality_of_invalid_max (s : AgentState) (v : JudgeVerdict)
    (h : s.verdict = some v) (hv : v.is_valid = false) (hr : 2 < s.retry_count) :
    check_quality s = "max_retries" := by
  simp [check_quality, h, hv, hr]

theorem check_quality_of_invalid_retry (s : AgentState) (v : JudgeVerdict)
    (h : s.verdict = some v) (hv : v.is_valid = false) (hr : s.retry_count ≤ 2) :
    check_quality s = "rejected" := by
  simp [check_quality, h, hv]
  omega

/-! Claim C7: entry routing by task. -/

/-- C7: the START conditional edge sends `task == "diagrams"` to the
Visuals node (never Manager), `task == "code"` to the Scaffold node, and
`task == "architecture"` to the Manager node; with positive fuel the
first node the runner executes is exactly the routed entry node. -/
theorem route_entry_by_task (s : AgentState) :
    (s.task = some "diagrams" → entryNode s = some NodeName.visuals) ∧
    (s.task = some "code" → entryNode s = some NodeName.scaffold) ∧
    (s.task = some "architecture" → entryNode s = some NodeName.manager) ∧
    (∀ (env : Agents) (fuel : Nat), s.task = some "diagrams" →
      (runWorkflow env (fuel + 1) s).2.head? = some NodeName.visuals) ∧
    (∀ (env : Agents) (fuel : Nat), s.task = some "code" →
      (runWorkflow env (fuel + 1) s).2.head? = some NodeName.scaffold) ∧
    (∀ (env : Agents) (fuel : Nat), s.task = some "architecture" →
      (runWorkflow env (fuel + 1) s).2.head? = some NodeName.manager) := by
  have hd : s.task = some "diagrams" → entryNode s = some NodeName.visuals := by
    intro h; simp only [entryNode, route_entry_point, h]; rfl
  have hc : s.task = some "code" → entryNode s = some NodeName.scaffold := by
    intro h; simp only [entryNode, route_entry_point, h]; rfl
  have ha : s.task = some "architecture" → entryNode s = some NodeName.manager := by
    intro h; simp only [entryNode, route_entry_point, h]; rfl
  refine ⟨hd, hc, ha, ?_, ?_, ?_⟩
  · intro env fuel h
    rw [runWorkflow, hd h]
    exact runWorkflowFrom_head env fuel s NodeName.visuals
  · intro env fuel h
    rw [runWorkflow, hc h]
    exact runWorkflowFrom_head env fuel s NodeName.scaffold
  · intro env fuel h
    rw [runWorkflow, ha h]
    exact runWorkflowFrom_head env fuel s NodeName.manager

/-- Witness for C7 at concrete initial states. -/
theorem route_entry_by_task_witness :
    entryNode sDiag = some NodeName.visuals ∧
    entryNode sCode = some NodeName.scaffold ∧
    entryNode initState = some NodeName.manager :=
  ⟨(route_entry_by_task sDiag).1 rfl,
   (route_entry_by_task sCode).2.1 rfl,
   (route_entry_by_task initState).2.2.1 rfl⟩

/-! Claim C10: default entry routing. -/

/-- C10: when `task` is missing or is any string other than "diagrams" and
"code", the START edge selects the Manager node; the entry routing is
total, so it never fails on an unrecognized task value (`u` is an
arbitrary state). -/
theorem route_entry_default_manager (s u : AgentState)
    (h : s.task = none ∨ ∃ t, s.task = some t ∧ t ≠ "diagrams" ∧ t ≠ "code") :
    entryNode s = some NodeName.manager ∧ (entryNode u).isSome = true := by
  constructor
  · rcases h with h | ⟨t, ht, ht1, ht2⟩
    · simp only [entryNode, route_entry_point, h]; rfl
    · simp only [entryNode, route_entry_point, ht, Option.getD_some]
      have e1 : (t == "diagrams") = false := beq_eq_false_iff_ne.mpr ht1
      have e2 : (t == "code") = false := beq_eq_false_iff_ne.mpr ht2
      rw [e1, e2]
      rfl
  · unfold entryNode route_entry_point start_edges
    rcases u.task with _ | t
    · rfl
    · by_cases e1 : ((t : String) == "diagrams") = true
      · simp [e1]
      · by_cases e2 : ((t : String) == "code") = true
        · simp [e1, e2]
        · simp [e1, e2]

/-- Witness for C10 at a concrete unrecognized task. -/
theorem route_entry_default_manager_witness :
    entryNode sWeird = some NodeName.manager ∧ (entryNode initState).isSome = true :=
  route_entry_default_manager sWeird initState
    (Or.inr ⟨"foobar", rfl, by decide, by decide⟩)

/-! Claim C2: judge routing and the refiner back edge. -/

/-- C2: after every Judge run the conditional edge maps the updated state
to END when the verdict is valid, to END when `retry_count > 2`
(max-retries bailout), and to the Refiner otherwise; the Refiner has an
unconditional edge back to the Judge. -/
theorem check_quality_routing (s : AgentState) :
    routeAfter NodeName.judge s =
      some (if (s.verdict.map JudgeVerdict.is_valid).getD false then Dest.toEnd
            else if s.retry_count > 2 then Dest.toEnd
            else Dest.toNode NodeName.refiner) ∧
    routeAfter NodeName.refiner s = some (Dest.toNode NodeName.judge) := by
  refine ⟨?_, rfl⟩
  show judge_edges (check_quality s) = _
  unfold check_quality
  by_cases h1 : (s.verdict.map JudgeVerdict.is_valid).getD false
  · rw [if_pos h1, if_pos h1]; rfl
  · rw [if_neg h1, if_neg h1]
    by_cases h2 : s.retry_count > 2
    · rw [if_pos h2, if_pos h2]; rfl
    · rw [if_neg h2, if_neg h2]; rfl

/-! Claim C1: which node increments the retry counter. -/

/-- C1 counterexample: on a concrete run fragment the Judge node leaves
`retry_count` at 0 after an evaluation (the claim requires an increment to
1), while the Refiner node (which the claim lists among the nodes that
never touch the counter) increments it from 0 to 1. -/
theorem retry_counter_claim_counterexample :
    (judge_node envW sJudgeReady).map AgentState.retry_count = some 0 ∧
    sJudgeReady.retry_count = 0 ∧
    (refiner_node envW sRefReady).map AgentState.retry_count = some 1 ∧
    sRefReady.retry_count = 0 :=
  ⟨rfl, rfl, rfl, rfl⟩

/-- C1 amended: `retry_count` is incremented exactly once by each Refiner
execution and by no other node; in particular the Judge never changes it. -/
theorem retry_counter_refiner_only (env : Agents) (n : NodeName) (s s2 : AgentState)
    (h : execNode env n s = some s2) :
    s2.retry_count =
      if n = NodeName.refiner then s.retry_count + 1 else s.retry_count := by
  cases n <;> simp only [execNode] at h
  case manager =>
    injection h with h2; subst h2; rfl
  case security =>
    unfold security_node at h
    split at h
    · exact Option.noConfusion h
    · injection h with h2; subst h2; rfl
  case team_lead =>
    unfold lead_node at h
    split at h
    · exact Option.noConfusion h
    · injection h with h2; subst h2; rfl
  case judge =>
    unfold judge_node at h
    split at h
    · injection h with h2; subst h2; rfl
    · exact Option.noConfusion h
  case refiner =>
    unfold refiner_node at h
    split at h
    · exact Option.noConfusion h
    · injection h with h2; subst h2; rfl
  case visuals =>
    unfold visuals_node at h
    split at h
    · exact Option.noConfusion h
    · split at h
      · exact Option.noConfusion h
      · injection h with h2; subst h2; rfl
  case fix_diagram =>
    unfold fix_diagram_node at h
    split at h
    · exact Option.noConfusion h
    · exact Option.noConfusion h
  case validator =>
    unfold validator_node at h
    split at h
    · injection h with h2; subst h2; rfl
    · exact Option.noConfusion h
  case scaffold =>
    unfold scaffold_node at h
    split at h
    · exact Option.noConfusion h
    · injection h with h2; subst h2; rfl

/-- Witness for the amended C1 at a concrete node execution. -/
theorem retry_counter_refiner_only_witness :
    (manager_node envW initState).retry_count =
      if NodeName.manager = NodeName.refiner then initState.retry_count + 1
      else initState.retry_count :=
  retry_counter_refiner_only envW NodeName.manager initState
    (manager_node envW initState) rfl

/-! Claim C8: client factory on unknown providers. -/

/-- C8 counterexample: on the unknown provider "mistral" the factory fails
with `KeyError("mistral")` from the `models[provider]` subscript, which is
not the dedicated `ValueError("Unknown provider: ...")` the claim names. -/
theorem get_llm_unknown_provider_counterexample :
    get_llm "mistral" "sk-test" "smart" = Except.error (PyExc.keyError "mistral") ∧
    PyExc.keyError "mistral" ≠ PyExc.valueError "Unknown provider: mistral" :=
  ⟨rfl, by decide⟩

/-- C8 amended: for every provider string outside the supported set the
factory fails with `KeyError(provider)` raised by the `models[provider]`
subscript, for every api key and model tier; the dedicated ValueError is
unreachable on this path. -/
theorem get_llm_unknown_provider_keyerror (p k mt : String)
    (h1 : p ≠ "openai") (h2 : p ≠ "gemini") (h3 : p ≠ "claude") (h4 : p ≠ "ollama") :
    get_llm p k mt = Except.error (PyExc.keyError p) := by
  have e1 : (("openai" : String) == p) = false := beq_eq_false_iff_ne.mpr (Ne.symm h1)
  have e2 : (("gemini" : String) == p) = false := beq_eq_false_iff_ne.mpr (Ne.symm h2)
  have e3 : (("claude" : String) == p) = false := beq_eq_false_iff_ne.mpr (Ne.symm h3)
  have e4 : (("ollama" : String) == p) = false := beq_eq_false_iff_ne.mpr (Ne.symm h4)
  have hfind : models_dict.find? (fun kv => kv.1 == p) = none := by
    simp [models_dict, List.find?, e1, e2, e3, e4]
  unfold get_llm dictGet
  rw [hfind]
  rfl

/-- Witness for the amended C8 at a concrete unknown provider. -/
theorem get_llm_unknown_provider_keyerror_witness :
    get_llm "bedrock" "sk-test" "fast" = Except.error (PyExc.keyError "bedrock") :=
  get_llm_unknown_provider_keyerror "bedrock" "sk-test" "fast"
    (by decide) (by decide) (by decide) (by decide)

/-! Claim C4: the logs channel across one transition. -/

/-- C4: the `logs` field of `AgentState` carries no reducer annotation, so
its LangGraph channel is last-value: the one-entry list a node returns
replaces the accumulated trail.  Concretely, after the Manager node the
logs hold exactly the Manager entry, and the Security transition that
follows leaves logs equal to just the Security entry: the previous state's
logs are not a prefix of the new logs, refuting append-only accumulation. -/
theorem logs_overwritten_not_appended :
    (manager_node envW initState).logs = [⟨"Manager", "HLD drafted"⟩] ∧
    (security_node envW (manager_node envW initState)).map AgentState.logs =
      some [⟨"Security", "Security hardened"⟩] ∧
    ¬ List.IsPrefix ((manager_node envW initState).logs)
        [(⟨"Security", "Security hardened"⟩ : LogEntry)] := by
  refine ⟨rfl, rfl, ?_⟩
  decide

/-! Claim C9: the Visuals node on every input. -/

/-- C9: `tools.hld_to_mermaid` raises AttributeError on every
`HighLevelDesign` instance (the data-flow section reads the nonexistent
`architecture_overview.event_flows` field, and the storage loop treats
dict keys as objects), so `visuals_node` raises on every state and never
produces the deterministic `diagram_code` the claim describes; the last
conjunct evaluates the node at a concrete failing input that does carry
an HLD. -/
theorem visuals_node_crashes_on_every_input :
    (∀ hld : HighLevelDesign, hld_to_mermaid hld = none) ∧
    (∀ (env : Agents) (s : AgentState), visuals_node env s = none) ∧
    sVis.hld = some (default : HighLevelDesign) ∧
    visuals_node envW sVis = none := by
  have htool : ∀ hld : HighLevelDesign, hld_to_mermaid hld = none := by
    intro hld
    unfold hld_to_mermaid
    rcases hld.data_architecture.storage_choices with _ | ⟨a, l⟩ <;> rfl
  have hnode : ∀ (env : Agents) (s : AgentState), visuals_node env s = none := by
    intro env s
    rcases hs : s.hld with _ | h
    · simp [visuals_node, hs]
    · simp [visuals_node, hs, htool]
  exact ⟨htool, hnode, rfl, hnode envW sVis⟩

/-! Claim C5: the Diagrams-path fix-up loop. -/

/-- A Diagrams-path state about to enter the fix-up loop: `retry_count`
still 0 as at the start of the run, a candidate diagram present, and the
stored execution results reporting an error. -/
def sLoop : AgentState :=
  { initState with
    task := some "diagrams",
    diagram_code := some ⟨"graph TD", "", ""⟩,
    diagram_path := some ["Error: execution failed"] }

/-- C5: the fix-up loop can neither iterate nor terminate through the
claimed bailout.  `fix_diagram_node` raises on every execution (the
four-argument call to the eight-parameter `agents.diagram_fixer` is a
TypeError, preceded by an AttributeError when no diagram code is
present), so any run that enters the `fix_diagram` node aborts with an
uncaught exception instead of reaching END; and since no diagrams-path
node writes a `retry_count` key, a state whose counter is still 0 can
never make `check_diagram_execution` return "failed", so the
`retry_count > 3` bailout the claim relies on cannot fire.  The last
conjunct evaluates the run at the concrete failing input `sLoop`. -/
theorem fix_diagram_loop_never_reaches_end :
    (∀ (env : Agents) (s : AgentState), fix_diagram_node env s = none) ∧
    (∀ (env : Agents) (s : AgentState) (fuel : Nat),
      (runWorkflowFrom env (fuel + 1) s NodeName.fix_diagram).1 = RunResult.exc) ∧
    (∀ s : AgentState,
      check_diagram_execution { s with retry_count := 0 } ≠ "failed") ∧
    (runWorkflowFrom envW 5 sLoop NodeName.fix_diagram).1 = RunResult.exc := by
  have hnode : ∀ (env : Agents) (s : AgentState), fix_diagram_node env s = none := by
    intro env s
    rcases hdc : s.diagram_code with _ | dc
    · simp [fix_diagram_node, hdc]
    · simp [fix_diagram_node, hdc]
  have hrun : ∀ (env : Agents) (s : AgentState) (fuel : Nat),
      (runWorkflowFrom env (fuel + 1) s NodeName.fix_diagram).1 = RunResult.exc := by
    intro env s fuel
    rw [runWorkflowFrom_succ]
    rw [show execNode env NodeName.fix_diagram s = none from hnode env s]
  have hbail : ∀ s : AgentState,
      check_diagram_execution { s with retry_count := 0 } ≠ "failed" := by
    intro s
    unfold check_diagram_execution
    split
    · decide
    · split
      · decide
      · split
        · show ("error" : String) ≠ "failed"
          decide
        · decide
  exact ⟨hnode, hrun, hbail, hrun envW sLoop 4⟩

/-! Node shape lemmas for the Architecture path. -/

theorem bool_eq_false_of_ne_true {b : Bool} (h : ¬ b = true) : b = false := by
  cases b
  · rfl
  · exact absurd rfl h

theorem security_node_eq (env : Agents) (s : AgentState) (h : HighLevelDesign)
    (hh : s.hld = some h) :
    security_node env s = some
      { s with
        hld := some { h with security_compliance := (env.security_specialist h).1 },
        total_tokens := s.total_tokens + (env.security_specialist h).2,
        logs := [⟨"Security", "Security hardened"⟩] } := by
  unfold security_node
  rw [hh]

theorem lead_node_eq (env : Agents) (s : AgentState) (h : HighLevelDesign)
    (hh : s.hld = some h) :
    lead_node env s = some
      { s with
        lld := some (env.team_lead h).1,
        total_tokens := s.total_tokens + (env.team_lead h).2,
        logs := [⟨"Lead", "LLD created"⟩] } := by
  unfold lead_node
  rw [hh]

theorem judge_node_eq (env : Agents) (s : AgentState) (h : HighLevelDesign)
    (l : LowLevelDesign) (hh : s.hld = some h) (hl : s.lld = some l) :
    judge_node env s = some
      { s with
        verdict := some (env.architecture_judge h l).1,
        total_tokens := s.total_tokens + (env.architecture_judge h l).2,
        logs := [⟨"Judge", "Verdict: " ++
          (if (env.architecture_judge h l).1.is_valid then "Approved"
           else "Rejected")⟩] } := by
  unfold judge_node
  rw [hh, hl]

theorem refiner_node_eq (env : Agents) (s : AgentState) (v : JudgeVerdict)
    (hv : s.verdict = some v) :
    refiner_node env s = some
      { s with
        hld := some (env.reiteration_agent v s.hld s.lld).1.hld,
        lld := some (env.reiteration_agent v s.hld s.lld).1.lld,
        retry_count := s.retry_count + 1,
        total_tokens := s.total_tokens + (env.reiteration_agent v s.hld s.lld).2,
        logs := [⟨"Refiner", "Design refined"⟩] } := by
  unfold refiner_node
  rw [hv]

/-- A judge step whose conditional edge resolves to END. -/
theorem judge_exit (env : Agents) (fuel : Nat) (s JSt : AgentState)
    (hJ : execNode env NodeName.judge s = some JSt)
    (hroute : routeAfter NodeName.judge JSt = some Dest.toEnd) :
    runWorkflowFrom env (fuel + 1) s NodeName.judge =
      (RunResult.ok JSt, [NodeName.judge]) := by
  rw [runWorkflowFrom_succ, hJ]
  dsimp only
  rw [hroute]

/-- A rejected judge step followed by the refiner and its unconditional
edge back to the judge. -/
theorem judge_reject_step (env : Agents) (fuel : Nat) (s JSt RSt : AgentState)
    (hJ : execNode env NodeName.judge s = some JSt)
    (hroute : routeAfter NodeName.judge JSt = some (Dest.toNode NodeName.refiner))
    (hR : execNode env NodeName.refiner JSt = some RSt) :
    runWorkflowFrom env (fuel + 2) s NodeName.judge =
      ((runWorkflowFrom env fuel RSt NodeName.judge).1,
       NodeName.judge :: NodeName.refiner ::
         (runWorkflowFrom env fuel RSt NodeName.judge).2) := by
  rw [show fuel + 2 = (fuel + 1) + 1 from rfl, runWorkflowFrom_succ, hJ]
  dsimp only
  rw [hroute]
  dsimp only
  rw [runWorkflowFrom_succ, hR]
  dsimp only [routeAfter]

/-- Bounded-retry property of the Judge-Refiner loop: from the judge node
with both documents present and at most `k` refinements remaining, the
loop reaches END with at most `k + 1` further judge evaluations, and the
final retry counter never exceeds 3. -/
theorem judge_loop_bound (k : Nat) :
    ∀ (env : Agents) (s : AgentState) (fuel : Nat),
      s.hld.isSome = true → s.lld.isSome = true → s.retry_count ≤ 3 →
      3 - s.retry_count ≤ k → 2 * k + 1 ≤ fuel →
      ∃ final, (runWorkflowFrom env fuel s NodeName.judge).1 = RunResult.ok final ∧
        final.retry_count ≤ 3 ∧
        (runWorkflowFrom env fuel s NodeName.judge).2.count NodeName.judge ≤ k + 1 := by
  induction k with
  | zero =>
    intro env s fuel hh0 hl0 hr3 hk hfuel
    obtain ⟨h, hh⟩ := Option.isSome_iff_exists.mp hh0
    obtain ⟨l, hl⟩ := Option.isSome_iff_exists.mp hl0
    obtain ⟨f, rfl⟩ : ∃ f, fuel = f + 1 := ⟨fuel - 1, by omega⟩
    have hr : s.retry_count = 3 := by omega
    obtain ⟨JSt, hJ, hJv, hJr⟩ :
        ∃ t, execNode env NodeName.judge s = some t ∧
          t.verdict = some (env.architecture_judge h l).1 ∧
          t.retry_count = s.retry_count :=
      ⟨_, judge_node_eq env s h l hh hl, rfl, rfl⟩
    have hroute : routeAfter NodeName.judge JSt = some Dest.toEnd := by
      show judge_edges (check_quality JSt) = some Dest.toEnd
      by_cases hv : (env.architecture_judge h l).1.is_valid = true
      · rw [check_quality_of_valid JSt _ hJv hv]
        exact judge_edges_approved
      · rw [check_quality_of_invalid_max JSt _ hJv (bool_eq_false_of_ne_true hv)
          (by omega)]
        exact judge_edges_max_retries
    rw [judge_exit env f s JSt hJ hroute]
    exact ⟨JSt, rfl, by omega, by simp⟩
  | succ k ih =>
    intro env s fuel hh0 hl0 hr3 hk hfuel
    obtain ⟨h, hh⟩ := Option.isSome_iff_exists.mp hh0
    obtain ⟨l, hl⟩ := Option.isSome_iff_exists.mp hl0
    obtain ⟨f, rfl⟩ : ∃ f, fuel = f + 1 := ⟨fuel - 1, by omega⟩
    obtain ⟨JSt, hJ, hJv, hJr⟩ :
        ∃ t, execNode env NodeName.judge s = some t ∧
          t.verdict = some (env.architecture_judge h l).1 ∧
          t.retry_count = s.retry_count :=
      ⟨_, judge_node_eq env s h l hh hl, rfl, rfl⟩
    by_cases hv : (env.architecture_judge h l).1.is_valid = true
    · have hroute : routeAfter NodeName.judge JSt = some Dest.toEnd := by
        show judge_edges (check_quality JSt) = some Dest.toEnd
        rw [check_quality_of_valid JSt _ hJv hv]
        exact judge_edges_approved
      rw [judge_exit env f s JSt hJ hroute]
      exact ⟨JSt, rfl, by omega, by simp⟩
    · by_cases hr2 : 2 < s.retry_count
      · have hroute : routeAfter NodeName.judge JSt = some Dest.toEnd := by
          show judge_edges (check_quality JSt) = some Dest.toEnd
          rw [check_quality_of_invalid_max JSt _ hJv (bool_eq_false_of_ne_true hv)
            (by omega)]
          exact judge_edges_max_retries
        rw [judge_exit env f s JSt hJ hroute]
        exact ⟨JSt, rfl, by omega, by simp⟩
      · have hroute : routeAfter NodeName.judge JSt =
            some (Dest.toNode NodeName.refiner) := by
          show judge_edges (check_quality JSt) = some (Dest.toNode NodeName.refiner)
          rw [check_quality_of_invalid_retry JSt _ hJv (bool_eq_false_of_ne_true hv)
            (by omega)]
          exact judge_edges_rejected
        obtain ⟨RSt, hR, hRr, hRh, hRl⟩ :
            ∃ t, execNode env NodeName.refiner JSt = some t ∧
              t.retry_count = JSt.retry_count + 1 ∧ t.hld.isSome = true ∧
              t.lld.isSome = true :=
          ⟨_, refiner_node_eq env JSt _ hJv, rfl, rfl, rfl⟩
        obtain ⟨f2, rfl⟩ : ∃ f2, f = f2 + 1 := ⟨f - 1, by omega⟩
        rw [show f2 + 1 + 1 = f2 + 2 from rfl,
          judge_reject_step env f2 s JSt RSt hJ hroute hR]
        obtain ⟨final, hfin, hfr, hfc⟩ := ih env RSt f2 hRh hRl (by omega) (by omega)
          (by omega)
        refine ⟨final, hfin, hfr, ?_⟩
        have hne : NodeName.judge ≠ NodeName.refiner := by decide
        rw [List.count_cons_self, List.count_cons_of_ne hne]
        omega

/-- Exhaustion behavior of the Judge-Refiner loop under an always-invalid
judge: the loop still reaches END and the final state carries
`retry_count = 3` and an invalid verdict. -/
theorem judge_loop_exhaust (k : Nat) :
    ∀ (env : Agents) (s : AgentState) (fuel : Nat),
      (∀ (h : HighLevelDesign) (l : LowLevelDesign),
        (env.architecture_judge h l).1.is_valid = false) →
      s.hld.isSome = true → s.lld.isSome = true → s.retry_count + k = 3 →
      2 * k + 1 ≤ fuel →
      ∃ final, (runWorkflowFrom env fuel s NodeName.judge).1 = RunResult.ok final ∧
        final.retry_count = 3 ∧
        final.verdict.map JudgeVerdict.is_valid = some false := by
  induction k with
  | zero =>
    intro env s fuel hj hh0 hl0 hrk hfuel
    obtain ⟨h, hh⟩ := Option.isSome_iff_exists.mp hh0
    obtain ⟨l, hl⟩ := Option.isSome_iff_exists.mp hl0
    obtain ⟨f, rfl⟩ : ∃ f, fuel = f + 1 := ⟨fuel - 1, by omega⟩
    obtain ⟨JSt, hJ, hJv, hJr⟩ :
        ∃ t, execNode env NodeName.judge s = some t ∧
          t.verdict = some (env.architecture_judge h l).1 ∧
          t.retry_count = s.retry_count :=
      ⟨_, judge_node_eq env s h l hh hl, rfl, rfl⟩
    have hroute : routeAfter NodeName.judge JSt = some Dest.toEnd := by
      show judge_edges (check_quality JSt) = some Dest.toEnd
      rw [check_quality_of_invalid_max JSt _ hJv (hj h l) (by omega)]
      exact judge_edges_max_retries
    rw [judge_exit env f s JSt hJ hroute]
    refine ⟨JSt, rfl, by omega, ?_⟩
    rw [hJv]
    simp [hj h l]
  | succ k ih =>
    intro env s fuel hj hh0 hl0 hrk hfuel
    obtain ⟨h, hh⟩ := Option.isSome_iff_exists.mp hh0
    obtain ⟨l, hl⟩ := Option.isSome_iff_exists.mp hl0
    obtain ⟨f, rfl⟩ : ∃ f, fuel = f + 1 := ⟨fuel - 1, by omega⟩
    obtain ⟨JSt, hJ, hJv, hJr⟩ :
        ∃ t, execNode env NodeName.judge s = some t ∧
          t.verdict = some (env.architecture_judge h l).1 ∧
          t.retry_count = s.retry_count :=
      ⟨_, judge_node_eq env s h l hh hl, rfl, rfl⟩
    have hroute : routeAfter NodeName.judge JSt =
        some (Dest.toNode NodeName.refiner) := by
      show judge_edges (check_quality JSt) = some (Dest.toNode NodeName.refiner)
      rw [check_quality_of_invalid_retry JSt _ hJv (hj h l) (by omega)]
      exact judge_edges_rejected
    obtain ⟨RSt, hR, hRr, hRh, hRl⟩ :
        ∃ t, execNode env NodeName.refiner JSt = some t ∧
          t.retry_count = JSt.retry_count + 1 ∧ t.hld.isSome = true ∧
          t.lld.isSome = true :=
      ⟨_, refiner_node_eq env JSt _ hJv, rfl, rfl, rfl⟩
    obtain ⟨f2, rfl⟩ : ∃ f2, f = f2 + 1 := ⟨f - 1, by omega⟩
    rw [show f2 + 1 + 1 = f2 + 2 from rfl,
      judge_reject_step env f2 s JSt RSt hJ hroute hR]
    exact ih env RSt f2 hj hRh hRl (by omega) (by omega)

/-- The documents produced by the linear Manager, Security, TeamLead
prefix of the Architecture path. -/
def archDocs (env : Agents) (s : AgentState) : Option AgentState :=
  (security_node env (manager_node env s)).bind (lead_node env)

/-- Decomposition of an Architecture-path run: three linear steps reach
the judge with both documents present and the retry counter untouched. -/
theorem arch_prefix (env : Agents) (s : AgentState) (f : Nat)
    (hentry : route_entry_point s = "manager") :
    ∃ s3, archDocs env s = some s3 ∧
      s3.hld.isSome = true ∧ s3.lld.isSome = true ∧
      s3.retry_count = s.retry_count ∧
      runWorkflow env (f + 3) s =
        ((runWorkflowFrom env f s3 NodeName.judge).1,
         NodeName.manager :: NodeName.security :: NodeName.team_lead ::
           (runWorkflowFrom env f s3 NodeName.judge).2) := by
  obtain ⟨s2, hsec, h2h, h2l, h2r⟩ :
      ∃ t, security_node env (manager_node env s) = some t ∧
        t.hld.isSome = true ∧ t.lld = s.lld ∧ t.retry_count = s.retry_count :=
    ⟨_, security_node_eq env (manager_node env s) _ rfl, rfl, rfl, rfl⟩
  obtain ⟨h2, hh2⟩ := Option.isSome_iff_exists.mp h2h
  obtain ⟨s3, hlead, h3h, h3l, h3r⟩ :
      ∃ t, lead_node env s2 = some t ∧ t.hld = s2.hld ∧ t.lld.isSome = true ∧
        t.retry_count = s2.retry_count :=
    ⟨_, lead_node_eq env s2 h2 hh2, rfl, rfl, rfl⟩
  have hentryN : entryNode s = some NodeName.manager := by
    unfold entryNode
    rw [hentry]
    rfl
  refine ⟨s3, ?_, ?_, h3l, ?_, ?_⟩
  · show (security_node env (manager_node env s)).bind (lead_node env) = some s3
    rw [hsec]
    exact hlead
  · rw [h3h]
    exact h2h
  · rw [h3r, h2r]
  · unfold runWorkflow
    rw [hentryN]
    dsimp only
    rw [show f + 3 = (f + 2) + 1 from rfl, runWorkflowFrom_succ]
    dsimp only [execNode, routeAfter]
    rw [show f + 2 = (f + 1) + 1 from rfl, runWorkflowFrom_succ]
    dsimp only [execNode]
    rw [hsec]
    dsimp only [routeAfter]
    rw [runWorkflowFrom_succ]
    dsimp only [execNode]
    rw [hlead]
    dsimp only [routeAfter]

/-! Claim C3: termination and bound of the quality loop. -/

/-- Collaborators whose judge rejects every design. -/
def envFalse : Agents :=
  { envW with
    architecture_judge := fun _ _ =>
      ({ (default : JudgeVerdict) with is_valid := false }, 30) }

/-- Collaborators whose judge approves every design. -/
def envValid : Agents :=
  { envW with
    architecture_judge := fun _ _ =>
      ({ (default : JudgeVerdict) with is_valid := true }, 30) }

/-- C3 counterexample: with a judge that rejects every design, the
Architecture run performs exactly 4 = K+1 judge evaluations and returns a
final state whose `retry_count` is 3 = K, not K+1 = 4 as claimed. -/
theorem quality_loop_exhaustion_counterexample :
    (runWorkflow envFalse 12 initState).1.retryOf = some 3 ∧
    (runWorkflow envFalse 12 initState).1.retryOf ≠ some 4 ∧
    (runWorkflow envFalse 12 initState).2.count NodeName.judge = 4 := by
  refine ⟨rfl, ?_, rfl⟩
  intro hcontra
  rw [show (runWorkflow envFalse 12 initState).1.retryOf = some 3 from rfl] at hcontra
  exact absurd (Option.some.inj hcontra) (by omega)

/-- C3 amended: on the Architecture path with `retry_count` starting at 0
and enough fuel, every run reaches END with a final state (no exception),
the final retry counter is at most K = 3, at most K+1 = 4 judge
evaluations occur, and when the judge rejects on every evaluation the run
still returns, with `retry_count = K = 3` (not K+1) and an invalid final
verdict. -/
theorem quality_loop_bounded (env : Agents) (s : AgentState) (fuel : Nat)
    (hentry : route_entry_point s = "manager") (hr : s.retry_count = 0)
    (hfuel : 10 ≤ fuel) :
    (∃ final, (runWorkflow env fuel s).1 = RunResult.ok final ∧
      final.retry_count ≤ 3) ∧
    (runWorkflow env fuel s).2.count NodeName.judge ≤ 4 ∧
    ((∀ (h : HighLevelDesign) (l : LowLevelDesign),
        (env.architecture_judge h l).1.is_valid = false) →
      ∃ final, (runWorkflow env fuel s).1 = RunResult.ok final ∧
        final.retry_count = 3 ∧
        final.verdict.map JudgeVerdict.is_valid = some false) := by
  obtain ⟨f, rfl⟩ : ∃ f, fuel = f + 3 := ⟨fuel - 3, by omega⟩
  obtain ⟨s3, hdocs, h3h, h3l, h3r, hdecomp⟩ := arch_prefix env s f hentry
  rw [hdecomp]
  obtain ⟨final, hfin, hfr, hfc⟩ :=
    judge_loop_bound 3 env s3 f h3h h3l (by omega) (by omega) (by omega)
  have hne : NodeName.judge ≠ NodeName.manager := by decide
  have hne2 : NodeName.judge ≠ NodeName.security := by decide
  have hne3 : NodeName.judge ≠ NodeName.team_lead := by decide
  refine ⟨⟨final, hfin, hfr⟩, ?_, ?_⟩
  · dsimp only
    rw [List.count_cons_of_ne hne, List.count_cons_of_ne hne2,
      List.count_cons_of_ne hne3]
    omega
  · intro hj
    obtain ⟨final2, hfin2, hfr2, hfv2⟩ :=
      judge_loop_exhaust 3 env s3 f hj h3h h3l (by omega) (by omega)
    exact ⟨final2, hfin2, hfr2, hfv2⟩

/-- Witness for the amended C3 with the always-rejecting judge on a
concrete initial state. -/
theorem quality_loop_bounded_witness :
    (∃ final, (runWorkflow envFalse 10 initState).1 = RunResult.ok final ∧
      final.retry_count ≤ 3) ∧
    (runWorkflow envFalse 10 initState).2.count NodeName.judge ≤ 4 ∧
    ((∀ (h : HighLevelDesign) (l : LowLevelDesign),
        (envFalse.architecture_judge h l).1.is_valid = false) →
      ∃ final, (runWorkflow envFalse 10 initState).1 = RunResult.ok final ∧
        final.retry_count = 3 ∧
        final.verdict.map JudgeVerdict.is_valid = some false) :=
  quality_loop_bounded envFalse initState 10 rfl rfl (by omega)

/-! Claim C6: approval short-circuit. -/

/-- C6 counterexample: with a judge that approves on the first evaluation,
the run terminates without ever executing the Refiner, but the final
`retry_count` is 0, not 1 as the claim states. -/
theorem approval_short_circuit_counterexample :
    (runWorkflow envValid 10 initState).1.retryOf = some 0 ∧
    (runWorkflow envValid 10 initState).1.retryOf ≠ some 1 ∧
    NodeName.refiner ∉ (runWorkflow envValid 10 initState).2 := by
  refine ⟨rfl, ?_, by decide⟩
  intro hcontra
  rw [show (runWorkflow envValid 10 initState).1.retryOf = some 0 from rfl] at hcontra
  exact absurd (Option.some.inj hcontra) (by omega)

/-- C6 amended: if the judge verdict on the documents of the first
evaluation is valid, the Architecture run reaches END without ever
executing the Refiner node and the final state has `retry_count = 0`
(not 1: the judge does not increment the counter). -/
theorem approval_short_circuit (env : Agents) (s : AgentState) (fuel : Nat)
    (s3 : AgentState) (hentry : route_entry_point s = "manager")
    (hr : s.retry_count = 0) (hfuel : 4 ≤ fuel)
    (h3 : archDocs env s = some s3)
    (hvalid : ∀ (h : HighLevelDesign) (l : LowLevelDesign), s3.hld = some h →
      s3.lld = some l → (env.architecture_judge h l).1.is_valid = true) :
    ∃ final, (runWorkflow env fuel s).1 = RunResult.ok final ∧
      final.retry_count = 0 ∧
      NodeName.refiner ∉ (runWorkflow env fuel s).2 := by
  obtain ⟨f, rfl⟩ : ∃ f, fuel = f + 3 := ⟨fuel - 3, by omega⟩
  obtain ⟨s3x, h3x, h3h, h3l, h3r, hdecomp⟩ := arch_prefix env s f hentry
  rw [h3x] at h3
  injection h3 with h3e
  subst h3e
  obtain ⟨h, hh⟩ := Option.isSome_iff_exists.mp h3h
  obtain ⟨l, hl⟩ := Option.isSome_iff_exists.mp h3l
  obtain ⟨JSt, hJ, hJv, hJr⟩ :
      ∃ t, execNode env NodeName.judge s3x = some t ∧
        t.verdict = some (env.architecture_judge h l).1 ∧
        t.retry_count = s3x.retry_count :=
    ⟨_, judge_node_eq env s3x h l hh hl, rfl, rfl⟩
  have hroute : routeAfter NodeName.judge JSt = some Dest.toEnd := by
    show judge_edges (check_quality JSt) = some Dest.toEnd
    rw [check_quality_of_valid JSt _ hJv (hvalid h l hh hl)]
    exact judge_edges_approved
  obtain ⟨f2, rfl⟩ : ∃ f2, f = f2 + 1 := ⟨f - 1, by omega⟩
  rw [hdecomp, judge_exit env f2 s3x JSt hJ hroute]
  dsimp only
  refine ⟨JSt, rfl, ?_, ?_⟩
  · omega
  · decide

/-- Witness for the amended C6 with the always-approving judge at a
concrete initial state. -/
theorem approval_short_circuit_witness :
    ∃ final, (runWorkflow envValid 10 initState).1 = RunResult.ok final ∧
      final.retry_count = 0 ∧
      NodeName.refiner ∉ (runWorkflow envValid 10 initState).2 :=
  approval_short_circuit envValid initState 10
    ((archDocs envValid initState).get!) rfl rfl (by omega) rfl
    (fun _ _ _ _ => rfl)

end AIArchitect
